import Mathlib

/-!
Verification of the `indexers` package (Elasticsearch / OpenSearch document
indexers) of chentex/go-commons.

The two source files define `Elastic.new` / `Elastic.Index` and
`OpenSearch.new` / `OpenSearch.Index`.  We embed both shallowly: pure data
(byte strings, documents as the outcome of `json.Marshal`, configuration
records) and an explicit environment record abstracting the vendor client
library's responses (client creation, health check, index existence/creation,
bulk indexer creation, per-item add results, success callbacks, close).

`crypto/sha256` and `encoding/hex` are modelled bit-for-bit below, so that
content hashes and document IDs are computed exactly as in the Go code.
-/

set_option maxRecDepth 100000

deriving instance DecidableEq for Except

namespace GoCommons

/-- Byte strings: lists of naturals, each in `0..255`. -/
abbrev Bytes := List Nat

/-! ### SHA-256 (model of Go `crypto/sha256`, FIPS 180-4) -/

/-- Truncate to 32 bits, as Go `uint32` arithmetic does. -/
def w32 (x : Nat) : Nat := x % 4294967296

/-- Right rotation of a 32-bit word. -/
def rotr32 (n x : Nat) : Nat := w32 ((x <<< (32 - n)) ||| (x >>> n))

def bigSigma0 (x : Nat) : Nat := (rotr32 2 x) ^^^ (rotr32 13 x) ^^^ (rotr32 22 x)

def bigSigma1 (x : Nat) : Nat := (rotr32 6 x) ^^^ (rotr32 11 x) ^^^ (rotr32 25 x)

def smallSigma0 (x : Nat) : Nat := (rotr32 7 x) ^^^ (rotr32 18 x) ^^^ (x >>> 3)

def smallSigma1 (x : Nat) : Nat := (rotr32 17 x) ^^^ (rotr32 19 x) ^^^ (x >>> 10)

/-- `Ch(x,y,z) = (x ∧ y) ⊕ (¬x ∧ z)`, in its mux form `z ⊕ (x ∧ (y ⊕ z))`
(equivalent bitwise; validated by the FIPS test vectors below). -/
def sha2ch (x y z : Nat) : Nat := z ^^^ (x &&& (y ^^^ z))

/-- `Maj(x,y,z) = (x ∧ y) ⊕ (x ∧ z) ⊕ (y ∧ z)`, in the equivalent form
`(x ∧ y) ⊕ (z ∧ (x ⊕ y))` (validated by the FIPS test vectors below). -/
def sha2maj (x y z : Nat) : Nat := (x &&& y) ^^^ (z &&& (x ^^^ y))

/-- The 64 SHA-256 round constants (FIPS 180-4, in decimal). -/
def sha256K : List Nat :=
  [1116352408, 1899447441, 3049323471, 3921009573, 961987163, 1508970993,
   2453635748, 2870763221, 3624381080, 310598401, 607225278, 1426881987,
   1925078388, 2162078206, 2614888103, 3248222580, 3835390401, 4022224774,
   264347078, 604807628, 770255983, 1249150122, 1555081692, 1996064986,
   2554220882, 2821834349, 2952996808, 3210313671, 3336571891, 3584528711,
   113926993, 338241895, 666307205, 773529912, 1294757372, 1396182291,
   1695183700, 1986661051, 2177026350, 2456956037, 2730485921, 2820302411,
   3259730800, 3345764771, 3516065817, 3600352804, 4094571909, 275423344,
   430227734, 506948616, 659060556, 883997877, 958139571, 1322822218,
   1537002063, 1747873779, 1955562222, 2024104815, 2227730452, 2361852424,
   2428436474, 2756734187, 3204031479, 3329325298]

/-- The initial SHA-256 hash state (FIPS 180-4, in decimal). -/
def sha256Init : List Nat :=
  [1779033703, 3144134277, 1013904242, 2773480762,
   1359893119, 2600822924, 528734635, 1541459225]

/-- Big-endian 8-byte encoding of a length (in bits), as in SHA-256 padding. -/
def be64 (n : Nat) : Bytes :=
  [(n >>> 56) % 256, (n >>> 48) % 256, (n >>> 40) % 256, (n >>> 32) % 256,
   (n >>> 24) % 256, (n >>> 16) % 256, (n >>> 8) % 256, n % 256]

/-- SHA-256 padding: a `0x80` byte, zeros to 56 mod 64, then the bit length. -/
def sha256Pad (msg : Bytes) : Bytes :=
  msg ++ 128 :: List.replicate ((64 - ((msg.length + 9) % 64)) % 64) 0 ++ be64 (8 * msg.length)

/-- Group bytes into big-endian 32-bit words (Horner-style packing). -/
def bytesToWords : Bytes → List Nat
  | b0 :: b1 :: b2 :: b3 :: rest =>
      ((((b0 <<< 8 ||| b1) <<< 8 ||| b2) <<< 8) ||| b3) :: bytesToWords rest
  | _ => []

/-- Extend a 16-word block to the 64-word message schedule. -/
def msgSchedule (block : List Nat) : Array Nat :=
  (List.range 48).foldl
    (fun w i =>
      w.push (w32 (smallSigma1 (w.getD (i + 14) 0) + w.getD (i + 9) 0 +
                   smallSigma0 (w.getD (i + 1) 0) + w.getD i 0)))
    block.toArray

/-- One SHA-256 compression round on the 8-word working state. -/
def sha256Round (ki wi : Nat) (s : List Nat) : List Nat :=
  let t1 := w32 (s.getD 7 0 + bigSigma1 (s.getD 4 0) +
                 sha2ch (s.getD 4 0) (s.getD 5 0) (s.getD 6 0) + ki + wi)
  let t2 := w32 (bigSigma0 (s.getD 0 0) + sha2maj (s.getD 0 0) (s.getD 1 0) (s.getD 2 0))
  [w32 (t1 + t2), s.getD 0 0, s.getD 1 0, s.getD 2 0,
   w32 (s.getD 3 0 + t1), s.getD 4 0, s.getD 5 0, s.getD 6 0]

/-- Compress one 16-word block into the hash state. -/
def sha256Compress (h : List Nat) (block : List Nat) : List Nat :=
  let w := msgSchedule block
  let s := (List.range 64).foldl (fun s i => sha256Round (sha256K.getD i 0) (w.getD i 0) s) h
  List.zipWith (fun x y => w32 (x + y)) h s

/-- Big-endian bytes of a 32-bit word. -/
def wordToBytes (n : Nat) : Bytes :=
  [(n >>> 24) % 256, (n >>> 16) % 256, (n >>> 8) % 256, n % 256]

/-- SHA-256 digest (32 bytes) of a byte string; model of Go
`sha256.New()` / `Write` / `Sum(nil)` applied to the accumulated bytes. -/
def sha256 (msg : Bytes) : Bytes :=
  let ws := bytesToWords (sha256Pad msg)
  let hFinal := (List.range (ws.length / 16)).foldl
    (fun h i => sha256Compress h ((ws.drop (16 * i)).take 16)) sha256Init
  hFinal.foldr (fun wrd acc => wordToBytes wrd ++ acc) []

/-! ### Lowercase hex (model of Go `hex.EncodeToString`) -/

/-- Lowercase hexadecimal digit for a value in `0..15`. -/
def hexDigit (n : Nat) : Char := Char.ofNat (if n < 10 then 48 + n else 87 + n)

/-- Model of Go `hex.EncodeToString`: two lowercase hex chars per byte. -/
def hexEncodeToString (bs : Bytes) : String :=
  String.mk (bs.foldr (fun b acc => hexDigit (b / 16) :: hexDigit (b % 16) :: acc) [])

-- SHA-256 / hex test vectors validating the model against FIPS 180-4:
example : hexEncodeToString (sha256 []) =
    "e3b0c44298fc1c149afbf4c8996fb92427ae41e4649b934ca495991b7852b855" := by decide

example : hexEncodeToString (sha256 [97, 98, 99]) =
    "ba7816bf8f01cfea414140de5dae2223b00361a396177a9cb410ff61f20015ad" := by decide

example : hexEncodeToString (sha256 (List.range 100)) =
    "bce0aff19cf5aa6a7469a30d61d04e4376e4bbf6381052ee9e7f33925c954d52" := by decide

/-! ### Strings helpers -/

/-- Model of Go `strings.ToLower` restricted to ASCII letters (the general
Unicode case folding of the Go standard library is out of scope). -/
def asciiToLower (c : Char) : Char :=
  if 65 ≤ c.toNat ∧ c.toNat ≤ 90 then Char.ofNat (c.toNat + 32) else c

/-- Model of Go `strings.ToLower` (character-wise ASCII lowering). -/
def stringsToLower (s : String) : String := String.mk (s.data.map asciiToLower)

/-! ### Data model -/

/-- A document as `Index` observes it: the outcome of `json.Marshal document`
(`marshal = none` when the document is not JSON-serializable, in which case
`marshalErr` is the text of the `json.Marshal` error), together with the
`fmt` `%s` rendering `display` used in the error message. -/
structure Document where
  display : String
  marshal : Option Bytes
  marshalErr : String
deriving DecidableEq

/-- An item handed to the vendor bulk indexer by `bi.Add`
(`esutil.BulkIndexerItem` / `opensearchutil.BulkIndexerItem`):
the fields the Go code sets, minus the `OnSuccess` callback. -/
structure BulkIndexerItem where
  action : String
  body : Bytes
  documentID : String
deriving DecidableEq

/-- `IndexingOpts` as used by the callers (the `Index` bodies ignore it). -/
structure IndexingOpts where
  MetricName : String
  JobName : String
deriving DecidableEq

/-- Environment abstracting the vendor bulk-indexer library for one `Index`
call: the error of `NewBulkIndexer`, the error `bi.Add` returns for the k-th
added item, the error of `bi.Close`, the `Result` reported by the `OnSuccess`
callback for the k-th added item (`none`: the item did not succeed), and the
rendering of the elapsed time `dur.Truncate(time.Millisecond)`. -/
structure BulkEnv where
  newErr : Option String
  addErr : Nat → Option String
  closeErr : Option String
  results : Nat → Option String
  durStr : String

/-- The mutable state of the `for _, document := range documents` loop:
the accumulated bytes of `hasher` (a `sha256.New()` hash object), the key set
of the `docHash` map, the `redundantSkipped` counter, and the items added to
the bulk indexer so far. -/
structure LoopState where
  hasher : Bytes
  docHash : List String
  redundantSkipped : Nat
  items : List BulkIndexerItem
deriving DecidableEq

/-- The loop state at entry: fresh hasher, empty `docHash`, no skips. -/
def initLoopState : LoopState :=
  { hasher := [], docHash := [], redundantSkipped := 0, items := [] }

/-- The document loop of `Elastic.Index` (elastic.go lines 106-135).
Per document: `json.Marshal`; on error return the `Cannot encode document`
error.  Otherwise `hasher.Write(j)` (append to the accumulated state),
`docId := hex(hasher.Sum(nil))`; if `docId` is already in `docHash`,
increment `redundantSkipped` and `continue` — note the Go code does NOT
reset the hasher on this path.  Otherwise `bi.Add` (which may fail), record
`docHash[docId] = true` and `hasher.Reset()`. -/
def esIndexLoop (env : BulkEnv) : List Document → LoopState → LoopState × Option String
  | [], st => (st, none)
  | document :: rest, st =>
    match document.marshal with
    | none =>
        (st, some ("Cannot encode document " ++ document.display ++ ": " ++ document.marshalErr))
    | some j =>
      let hasher := st.hasher ++ j
      let docId := hexEncodeToString (sha256 hasher)
      if docId ∈ st.docHash then
        esIndexLoop env rest
          { st with hasher := hasher, redundantSkipped := st.redundantSkipped + 1 }
      else
        match env.addErr st.items.length with
        | some e =>
            ({ st with hasher := hasher }, some ("Unexpected ES indexing error: " ++ e))
        | none =>
          esIndexLoop env rest
            { hasher := [], docHash := st.docHash ++ [docId],
              redundantSkipped := st.redundantSkipped,
              items := st.items ++ [{ action := "index", body := j, documentID := docId }] }

/-- The document loop of `OpenSearch.Index` (lines 253-282): identical to
`esIndexLoop` except for the `Unexpected OpenSearch indexing error` text. -/
def osIndexLoop (env : BulkEnv) : List Document → LoopState → LoopState × Option String
  | [], st => (st, none)
  | document :: rest, st =>
    match document.marshal with
    | none =>
        (st, some ("Cannot encode document " ++ document.display ++ ": " ++ document.marshalErr))
    | some j =>
      let hasher := st.hasher ++ j
      let docId := hexEncodeToString (sha256 hasher)
      if docId ∈ st.docHash then
        osIndexLoop env rest
          { st with hasher := hasher, redundantSkipped := st.redundantSkipped + 1 }
      else
        match env.addErr st.items.length with
        | some e =>
            ({ st with hasher := hasher }, some ("Unexpected OpenSearch indexing error: " ++ e))
        | none =>
          osIndexLoop env rest
            { hasher := [], docHash := st.docHash ++ [docId],
              redundantSkipped := st.redundantSkipped,
              items := st.items ++ [{ action := "index", body := j, documentID := docId }] }

/-! ### The summary string -/

/-- `(List.range n).filterMap env.results`: the `Result` strings reported by
the `OnSuccess` callbacks over the `n` items added to the bulk indexer;
`indexerStats[r]` ends up as the number of occurrences of `r` here. -/
def successResults (env : BulkEnv) (n : Nat) : List String :=
  (List.range n).filterMap env.results

/-- First-occurrence deduplication (the key set of the Go map
`indexerStats`; Go map iteration order is unspecified, the model fixes
first-insertion order). -/
def dedupFirstAux (seen : List String) : List String → List String
  | [] => []
  | r :: rest =>
      if r ∈ seen then dedupFirstAux seen rest
      else r :: dedupFirstAux (r :: seen) rest

/-- The `indexerStats` map after `bi.Close` returns, as an association list
in first-insertion order: each distinct success `Result` with its count. -/
def indexerStatsList (env : BulkEnv) (n : Nat) : List (String × Nat) :=
  (dedupFirstAux [] (successResults env n)).map
    (fun r => (r, (successResults env n).count r))

/-- `statString += fmt.Sprintf(" %s=%d", stat, val)` over the stats map. -/
def renderStats (stats : List (String × Nat)) : String :=
  stats.foldl (fun acc p => acc ++ " " ++ p.1 ++ "=" ++ toString p.2) ""

/-- The `redundantskipped` suffix appended after the per-result entries,
only when at least one document was skipped. -/
def skipSuffix (redundantSkipped : Nat) : String :=
  if redundantSkipped > 0 then " redundantskipped=" ++ toString redundantSkipped else ""

/-- `fmt.Sprintf("Indexing finished in %v:%v", dur.Truncate(...), statString)`. -/
def indexSummary (durStr statString : String) : String :=
  "Indexing finished in " ++ durStr ++ ":" ++ statString

/-! ### `Index` -/

/-- The observable outcome of one `Index` call: the returned
`(string, error)` pair (as `Except`: `.error e` stands for `("", e)`),
the items actually added to the bulk indexer, the final `redundantSkipped`
counter, whether `NewBulkIndexer` was invoked, and the index name passed in
its configuration (when it was invoked). -/
structure IndexRunResult where
  result : Except String String
  submitted : List BulkIndexerItem
  redundantSkipped : Nat
  bulkCreated : Bool
  bulkIndexUsed : Option String

/-- `Elastic` instance: the stored index name (elastic.go line 38-40). -/
structure Elastic where
  index : String
deriving DecidableEq

/-- `OpenSearch` instance: the stored index name (lines 188-190). -/
structure OpenSearch where
  index : String
deriving DecidableEq

/-- `Elastic.Index` (elastic.go lines 84-147), instrumented with the trace of
items submitted to the bulk indexer.  Empty document list: return the skip
message without creating a bulk indexer.  Then `NewBulkIndexer` (on error:
`Error creating the indexer`), the document loop, `bi.Close` (on error:
`Unexpected ES error`), and the summary string. -/
def Elastic.IndexRun (esIndexer : Elastic) (documents : List Document)
    (_opts : IndexingOpts) (env : BulkEnv) : IndexRunResult :=
  if documents.length ≤ 0 then
    { result := Except.ok ("Indexing skipped due to " ++ toString documents.length ++ " docs"),
      submitted := [], redundantSkipped := 0, bulkCreated := false, bulkIndexUsed := none }
  else
    match env.newErr with
    | some e =>
        { result := Except.error ("Error creating the indexer: " ++ e),
          submitted := [], redundantSkipped := 0, bulkCreated := true,
          bulkIndexUsed := some esIndexer.index }
    | none =>
      let st := (esIndexLoop env documents initLoopState).1
      match (esIndexLoop env documents initLoopState).2 with
      | some e =>
          { result := Except.error e, submitted := st.items,
            redundantSkipped := st.redundantSkipped, bulkCreated := true,
            bulkIndexUsed := some esIndexer.index }
      | none =>
        match env.closeErr with
        | some e =>
            { result := Except.error ("Unexpected ES error: " ++ e), submitted := st.items,
              redundantSkipped := st.redundantSkipped, bulkCreated := true,
              bulkIndexUsed := some esIndexer.index }
        | none =>
            { result := Except.ok (indexSummary env.durStr
                (renderStats (indexerStatsList env st.items.length) ++
                 skipSuffix st.redundantSkipped)),
              submitted := st.items, redundantSkipped := st.redundantSkipped,
              bulkCreated := true, bulkIndexUsed := some esIndexer.index }

/-- The `(string, error)` value `Elastic.Index` returns. -/
def Elastic.Index (esIndexer : Elastic) (documents : List Document)
    (opts : IndexingOpts) (env : BulkEnv) : Except String String :=
  (Elastic.IndexRun esIndexer documents opts env).result

/-- `OpenSearch.Index` (lines 231-294), instrumented like `Elastic.IndexRun`;
identical to it except for the `Unexpected OpenSearch ...` error texts. -/
def OpenSearch.IndexRun (osIndexer : OpenSearch) (documents : List Document)
    (_opts : IndexingOpts) (env : BulkEnv) : IndexRunResult :=
  if documents.length ≤ 0 then
    { result := Except.ok ("Indexing skipped due to " ++ toString documents.length ++ " docs"),
      submitted := [], redundantSkipped := 0, bulkCreated := false, bulkIndexUsed := none }
  else
    match env.newErr with
    | some e =>
        { result := Except.error ("Error creating the indexer: " ++ e),
          submitted := [], redundantSkipped := 0, bulkCreated := true,
          bulkIndexUsed := some osIndexer.index }
    | none =>
      let st := (osIndexLoop env documents initLoopState).1
      match (osIndexLoop env documents initLoopState).2 with
      | some e =>
          { result := Except.error e, submitted := st.items,
            redundantSkipped := st.redundantSkipped, bulkCreated := true,
            bulkIndexUsed := some osIndexer.index }
      | none =>
        match env.closeErr with
        | some e =>
            { result := Except.error ("Unexpected OpenSearch error: " ++ e),
              submitted := st.items,
              redundantSkipped := st.redundantSkipped, bulkCreated := true,
              bulkIndexUsed := some osIndexer.index }
        | none =>
            { result := Except.ok (indexSummary env.durStr
                (renderStats (indexerStatsList env st.items.length) ++
                 skipSuffix st.redundantSkipped)),
              submitted := st.items, redundantSkipped := st.redundantSkipped,
              bulkCreated := true, bulkIndexUsed := some osIndexer.index }

/-- The `(string, error)` value `OpenSearch.Index` returns. -/
def OpenSearch.Index (osIndexer : OpenSearch) (documents : List Document)
    (opts : IndexingOpts) (env : BulkEnv) : Except String String :=
  (OpenSearch.IndexRun osIndexer documents opts env).result

/-! ### `new` -/

/-- `IndexerConfig` (the fields `new` reads). -/
structure IndexerConfig where
  type : String
  Servers : List String
  Index : String
  InsecureSkipVerify : Bool
deriving DecidableEq

/-- Environment abstracting the vendor client for one `new` call: the error
of `NewClient`, the error of `Cluster.Health()`, the status code of the
health response, `r.IsError()` of `Indices.Exists`, `r.IsError()` of
`Indices.Create`, and `r.String()` of the create response. -/
structure ClientEnv where
  newClientErr : Option String
  healthErr : Option String
  healthStatus : Nat
  existsIsError : Bool
  createIsError : Bool
  createRespStr : String
deriving DecidableEq

/-- `Elastic.new` (elastic.go lines 51-81), returning the updated receiver
and the `error` result.  Empty index name: error.  Then `NewClient`,
`Cluster.Health` (error, then status code), store the lowercased index into
the receiver, `Indices.Exists` (error return value discarded by the Go
code), and on an error response attempt `Indices.Create`. -/
def Elastic.new (esIndexer : Elastic) (indexerConfig : IndexerConfig)
    (env : ClientEnv) : Elastic × Option String :=
  if indexerConfig.Index = "" then (esIndexer, some ("index name not specified"))
  else
    let esIndex := stringsToLower indexerConfig.Index
    match env.newClientErr with
    | some e => (esIndexer, some ("error creating the ES client: " ++ e))
    | none =>
      match env.healthErr with
      | some e => (esIndexer, some ("ES health check failed: " ++ e))
      | none =>
        if env.healthStatus ≠ 200 then
          (esIndexer, some ("unexpected ES status code: " ++ toString env.healthStatus))
        else
          let esIndexer := { esIndexer with index := esIndex }
          if env.existsIsError then
            if env.createIsError then
              (esIndexer, some ("error creating index " ++ esIndex ++ " on ES: " ++
                env.createRespStr))
            else (esIndexer, none)
          else (esIndexer, none)

/-- `OpenSearch.new` (lines 198-228): identical to `Elastic.new` except for
the `OpenSearch` error texts. -/
def OpenSearch.new (osIndexer : OpenSearch) (indexerConfig : IndexerConfig)
    (env : ClientEnv) : OpenSearch × Option String :=
  if indexerConfig.Index = "" then (osIndexer, some ("index name not specified"))
  else
    let osIndex := stringsToLower indexerConfig.Index
    match env.newClientErr with
    | some e => (osIndexer, some ("error creating the OpenSearch client: " ++ e))
    | none =>
      match env.healthErr with
      | some e => (osIndexer, some ("OpenSearch health check failed: " ++ e))
      | none =>
        if env.healthStatus ≠ 200 then
          (osIndexer, some ("unexpected OpenSearch status code: " ++ toString env.healthStatus))
        else
          let osIndexer := { osIndexer with index := osIndex }
          if env.existsIsError then
            if env.createIsError then
              (osIndexer, some ("error creating index " ++ osIndex ++ " on OpenSearch: " ++
                env.createRespStr))
            else (osIndexer, none)
          else (osIndexer, none)

/-! ### Concrete fixtures -/

/-- The JSON string document `"a"` (encoding `"a"` = bytes 34,97,34). -/
def docA : Document := { display := "a", marshal := some [34, 97, 34], marshalErr := "" }

/-- The JSON string document `"b"` (encoding `"b"` = bytes 34,98,34). -/
def docB : Document := { display := "b", marshal := some [34, 98, 34], marshalErr := "" }

/-- A non-JSON-serializable document (e.g. a `chan string`, as in the repo's
own test suite). -/
def docBad : Document :=
  { display := "0xc00008e060", marshal := none,
    marshalErr := "json: unsupported type: chan string" }

/-- Opts as used by the repo's test suite. -/
def opts0 : IndexingOpts := { MetricName := "placeholder", JobName := "placeholder" }

/-- A bulk environment where every upstream operation succeeds and no
success callback fires. -/
def envOK : BulkEnv :=
  { newErr := none, addErr := fun _ => none, closeErr := none,
    results := fun _ => none, durStr := "11ms" }

/-- A bulk environment where every upstream operation succeeds and every
added item succeeds with result category `created`. -/
def envCreated : BulkEnv :=
  { newErr := none, addErr := fun _ => none, closeErr := none,
    results := fun _ => some ("created"), durStr := "11ms" }

/-- An `Elastic` receiver as initialized by a successful `new`. -/
def es0 : Elastic := { index := "go-commons-test" }

/-- An `OpenSearch` receiver as initialized by a successful `new`. -/
def os0 : OpenSearch := { index := "go-commons-test" }

/-- A config with a mixed-case index name. -/
def cfg0 : IndexerConfig :=
  { type := "elastic", Servers := [], Index := "MyIndex", InsecureSkipVerify := true }

/-- A client environment where every upstream operation succeeds. -/
def cenvOK : ClientEnv :=
  { newClientErr := none, healthErr := none, healthStatus := 200,
    existsIsError := false, createIsError := false, createRespStr := "" }

/-! ### Helper lemmas -/

/-- The two document loops agree on the resulting state and on whether they
fail; they can differ only in the text of the `bi.Add` error. -/
lemma osLoop_agree_esLoop (env : BulkEnv) (docs : List Document) :
    ∀ st : LoopState,
      (osIndexLoop env docs st).1 = (esIndexLoop env docs st).1
      ∧ (osIndexLoop env docs st).2.isNone = (esIndexLoop env docs st).2.isNone := by
  induction docs with
  | nil => intro st; exact ⟨rfl, rfl⟩
  | cons d rest ih =>
    intro st
    cases hm : d.marshal with
    | none => simp [osIndexLoop, esIndexLoop, hm]
    | some j =>
      by_cases hmem : hexEncodeToString (sha256 (st.hasher ++ j)) ∈ st.docHash
      · simpa [osIndexLoop, esIndexLoop, hm, hmem] using ih _
      · cases hadd : env.addErr st.items.length with
        | some e => simp [osIndexLoop, esIndexLoop, hm, hmem, hadd]
        | none => simpa [osIndexLoop, esIndexLoop, hm, hmem, hadd] using ih _

/-- The two `new` implementations agree on the stored index name and on
success versus failure. -/
lemma new_agree (i : String) (cfg : IndexerConfig) (cenv : ClientEnv) :
    ((Elastic.new { index := i } cfg cenv).1.index
      = (OpenSearch.new { index := i } cfg cenv).1.index)
    ∧ ((Elastic.new { index := i } cfg cenv).2.isNone
      = (OpenSearch.new { index := i } cfg cenv).2.isNone) := by
  obtain ⟨nce, he, hs, ee, ce, cs⟩ := cenv
  unfold Elastic.new OpenSearch.new
  by_cases h1 : cfg.Index = "" <;>
    cases nce <;> cases he <;>
    by_cases h2 : hs = 200 <;> cases ee <;> cases ce <;>
    simp [h1, h2]

/-- The two `IndexRun` implementations agree on everything observable except
the text of error messages. -/
lemma indexRun_agree (i : String) (documents : List Document) (opts : IndexingOpts)
    (env : BulkEnv) :
    ((Elastic.IndexRun { index := i } documents opts env).submitted
      = (OpenSearch.IndexRun { index := i } documents opts env).submitted)
    ∧ ((Elastic.IndexRun { index := i } documents opts env).redundantSkipped
      = (OpenSearch.IndexRun { index := i } documents opts env).redundantSkipped)
    ∧ ((Elastic.IndexRun { index := i } documents opts env).bulkCreated
      = (OpenSearch.IndexRun { index := i } documents opts env).bulkCreated)
    ∧ ((Elastic.IndexRun { index := i } documents opts env).bulkIndexUsed
      = (OpenSearch.IndexRun { index := i } documents opts env).bulkIndexUsed)
    ∧ ((Elastic.IndexRun { index := i } documents opts env).result.isOk
      = (OpenSearch.IndexRun { index := i } documents opts env).result.isOk)
    ∧ ((Elastic.IndexRun { index := i } documents opts env).result.toOption
      = (OpenSearch.IndexRun { index := i } documents opts env).result.toOption) := by
  by_cases hlen : documents.length ≤ 0
  · simp [Elastic.IndexRun, OpenSearch.IndexRun, hlen]
  · cases hne : env.newErr with
    | some e => simp [Elastic.IndexRun, OpenSearch.IndexRun, hlen, hne]
    | none =>
      obtain ⟨hstate, herr⟩ := osLoop_agree_esLoop env documents initLoopState
      cases hes : (esIndexLoop env documents initLoopState).2 with
      | some e =>
        rw [hes] at herr
        cases hos : (osIndexLoop env documents initLoopState).2 with
        | none => rw [hos] at herr; simp at herr
        | some e2 =>
          simp only [Elastic.IndexRun, OpenSearch.IndexRun, hlen, hne, hes, hos, hstate,
            if_neg hlen]
          exact ⟨rfl, rfl, rfl, rfl, rfl, rfl⟩
      | none =>
        rw [hes] at herr
        cases hos : (osIndexLoop env documents initLoopState).2 with
        | some e2 => rw [hos] at herr; simp at herr
        | none =>
          cases hcl : env.closeErr with
          | some e =>
            simp only [Elastic.IndexRun, OpenSearch.IndexRun, hlen, hne, hes, hos, hcl,
              hstate, if_neg hlen]
            exact ⟨rfl, rfl, rfl, rfl, rfl, rfl⟩
          | none =>
            simp [Elastic.IndexRun, OpenSearch.IndexRun, hlen, hne, hes, hos, hcl, hstate]

/-- A successful `Elastic.new` stored the lowercased configured index. -/
lemma elastic_new_success_index (es : Elastic) (cfg : IndexerConfig) (cenv : ClientEnv)
    (h : (Elastic.new es cfg cenv).2 = none) :
    (Elastic.new es cfg cenv).1.index = stringsToLower cfg.Index := by
  by_cases h1 : cfg.Index = "" <;>
  cases hnce : cenv.newClientErr <;>
  cases hhe : cenv.healthErr <;>
  by_cases h2 : cenv.healthStatus = 200 <;>
  cases hee : cenv.existsIsError <;>
  cases hce : cenv.createIsError <;>
  simp_all [Elastic.new]

/-- A successful `OpenSearch.new` stored the lowercased configured index. -/
lemma opensearch_new_success_index (os : OpenSearch) (cfg : IndexerConfig)
    (cenv : ClientEnv) (h : (OpenSearch.new os cfg cenv).2 = none) :
    (OpenSearch.new os cfg cenv).1.index = stringsToLower cfg.Index := by
  by_cases h1 : cfg.Index = "" <;>
  cases hnce : cenv.newClientErr <;>
  cases hhe : cenv.healthErr <;>
  by_cases h2 : cenv.healthStatus = 200 <;>
  cases hee : cenv.existsIsError <;>
  cases hce : cenv.createIsError <;>
  simp_all [OpenSearch.new]

/-- On a non-empty document list, the bulk-indexer configuration always
receives the receiver's stored index name. -/
lemma esIndexRun_bulkIndexUsed (es : Elastic) (docs : List Document)
    (opts : IndexingOpts) (env : BulkEnv) (h : docs ≠ []) :
    (Elastic.IndexRun es docs opts env).bulkIndexUsed = some es.index := by
  have hlen : ¬docs.length ≤ 0 := by
    simpa [Nat.pos_iff_ne_zero] using List.length_pos.mpr h
  cases hne : env.newErr <;>
  cases hes : (esIndexLoop env docs initLoopState).2 <;>
  cases hcl : env.closeErr <;>
  simp [Elastic.IndexRun, hlen, hne, hes, hcl]

/-- On a non-empty document list, the bulk-indexer configuration always
receives the receiver's stored index name (OpenSearch side). -/
lemma osIndexRun_bulkIndexUsed (os : OpenSearch) (docs : List Document)
    (opts : IndexingOpts) (env : BulkEnv) (h : docs ≠ []) :
    (OpenSearch.IndexRun os docs opts env).bulkIndexUsed = some os.index := by
  have hlen : ¬docs.length ≤ 0 := by
    simpa [Nat.pos_iff_ne_zero] using List.length_pos.mpr h
  cases hne : env.newErr <;>
  cases hes : (osIndexLoop env docs initLoopState).2 <;>
  cases hcl : env.closeErr <;>
  simp [OpenSearch.IndexRun, hlen, hne, hes, hcl]

/-- When the document loop completes without error, each document either
contributed one submitted item or one increment of `redundantSkipped`. -/
lemma esIndexLoop_count (env : BulkEnv) (docs : List Document) :
    ∀ st : LoopState, (esIndexLoop env docs st).2 = none →
      (esIndexLoop env docs st).1.redundantSkipped
        + (esIndexLoop env docs st).1.items.length
      = st.redundantSkipped + st.items.length + docs.length := by
  induction docs with
  | nil => intro st _; simp [esIndexLoop]
  | cons d rest ih =>
    intro st h
    cases hm : d.marshal with
    | none => simp [esIndexLoop, hm] at h
    | some j =>
      by_cases hmem : hexEncodeToString (sha256 (st.hasher ++ j)) ∈ st.docHash
      · simp only [esIndexLoop, hm, if_pos hmem] at h ⊢
        have hrec := ih _ h
        simp only [List.length_cons] at hrec ⊢
        omega
      · cases hadd : env.addErr st.items.length with
        | some e => simp [esIndexLoop, hm, if_neg hmem, hadd] at h
        | none =>
          simp only [esIndexLoop, hm, if_neg hmem, hadd] at h ⊢
          have hrec := ih _ h
          rw [hrec]
          simp only [List.length_append, List.length_cons, List.length_nil]
          omega

/-- Shape of a successful non-empty `Elastic.Index` call: the returned
string is the summary built from the per-result stats of the submitted
items and the skip suffix, and all upstream steps succeeded. -/
lemma esIndexRun_ok_shape (es : Elastic) (documents : List Document)
    (opts : IndexingOpts) (env : BulkEnv) (s : String) (hne : documents ≠ [])
    (h : (Elastic.IndexRun es documents opts env).result = Except.ok s) :
    s = indexSummary env.durStr
        (renderStats (indexerStatsList env
            (Elastic.IndexRun es documents opts env).submitted.length)
         ++ skipSuffix (Elastic.IndexRun es documents opts env).redundantSkipped)
    ∧ env.newErr = none
    ∧ (esIndexLoop env documents initLoopState).2 = none
    ∧ env.closeErr = none
    ∧ (Elastic.IndexRun es documents opts env).submitted
        = (esIndexLoop env documents initLoopState).1.items
    ∧ (Elastic.IndexRun es documents opts env).redundantSkipped
        = (esIndexLoop env documents initLoopState).1.redundantSkipped := by
  have hlen : ¬documents.length ≤ 0 := by
    simpa [Nat.pos_iff_ne_zero] using List.length_pos.mpr hne
  cases hne2 : env.newErr with
  | some e =>
    simp only [Elastic.IndexRun] at h
    rw [if_neg hlen] at h
    simp [hne2] at h
  | none =>
    cases hes : (esIndexLoop env documents initLoopState).2 with
    | some e =>
      simp only [Elastic.IndexRun] at h
      rw [if_neg hlen] at h
      simp [hne2, hes] at h
    | none =>
      cases hcl : env.closeErr with
      | some e =>
        simp only [Elastic.IndexRun] at h
        rw [if_neg hlen] at h
        simp [hne2, hes, hcl] at h
      | none =>
        simp only [Elastic.IndexRun] at h ⊢
        rw [if_neg hlen] at h ⊢
        simp only [hne2, hes, hcl, Except.ok.injEq] at h ⊢
        exact ⟨h.symm, trivial, trivial, trivial, trivial, trivial⟩

/-- Membership in the first-occurrence deduplication. -/
lemma mem_dedupFirstAux (r : String) : ∀ l seen : List String,
    r ∈ dedupFirstAux seen l ↔ (r ∈ l ∧ r ∉ seen) := by
  intro l
  induction l with
  | nil => intro seen; simp [dedupFirstAux]
  | cons x rest ih =>
    intro seen
    by_cases hx : x ∈ seen
    · simp only [dedupFirstAux, if_pos hx, ih, List.mem_cons]
      constructor
      · rintro ⟨h1, h2⟩
        exact ⟨Or.inr h1, h2⟩
      · rintro ⟨h1 | h1, h2⟩
        · exact absurd (h1 ▸ hx) h2
        · exact ⟨h1, h2⟩
    · simp only [dedupFirstAux, if_neg hx, List.mem_cons, ih]
      by_cases hrx : r = x
      · subst hrx; simp [hx]
      · simp [hrx]

/-- The first-occurrence deduplication has no duplicates. -/
lemma nodup_dedupFirstAux : ∀ l seen : List String, (dedupFirstAux seen l).Nodup := by
  intro l
  induction l with
  | nil => intro seen; simp [dedupFirstAux]
  | cons x rest ih =>
    intro seen
    by_cases hx : x ∈ seen
    · simpa [dedupFirstAux, if_pos hx] using ih seen
    · simp only [dedupFirstAux, if_neg hx]
      refine List.nodup_cons.mpr ⟨?_, ih _⟩
      simp [mem_dedupFirstAux]

/-- Mapping each key to a pair and projecting back is the identity. -/
lemma map_fst_pairing (c : String → Nat) : ∀ l : List String,
    (l.map (fun r => (r, c r))).map Prod.fst = l := by
  intro l
  induction l with
  | nil => rfl
  | cons a l ih => simp only [List.map_cons]; rw [ih]

/-- The key list of the stats list is the first-occurrence deduplication of
the success results. -/
lemma indexerStatsList_keys (env : BulkEnv) (n : Nat) :
    (indexerStatsList env n).map Prod.fst
      = dedupFirstAux [] (successResults env n) := by
  simp only [indexerStatsList]
  exact map_fst_pairing _ _

/-- The keys of the stats list are pairwise distinct. -/
lemma indexerStatsList_keys_nodup (env : BulkEnv) (n : Nat) :
    ((indexerStatsList env n).map Prod.fst).Nodup := by
  rw [indexerStatsList_keys]
  exact nodup_dedupFirstAux _ _

/-- The stats list has a key exactly for each reported success result. -/
lemma mem_indexerStatsList_keys (env : BulkEnv) (n : Nat) (r : String) :
    r ∈ (indexerStatsList env n).map Prod.fst ↔ r ∈ successResults env n := by
  rw [indexerStatsList_keys, mem_dedupFirstAux]
  simp

/-- Each stats entry carries the number of successful items of its
category. -/
lemma indexerStatsList_counts (env : BulkEnv) (n : Nat) (p : String × Nat)
    (hp : p ∈ indexerStatsList env n) :
    p.2 = (successResults env n).count p.1 := by
  simp only [indexerStatsList, List.mem_map] at hp
  obtain ⟨r, _, hr⟩ := hp
  rw [← hr]

/-- When no `bi.Add` call fails, the Elastic loop stops at the first
non-serializable document with that document's encoding error, and the items
added so far are exactly those contributed by the serializable prefix. -/
lemma esIndexLoop_first_bad (env : BulkEnv) (hadd : ∀ k, env.addErr k = none)
    (bad : Document) (hbad : bad.marshal = none) (rest : List Document) :
    ∀ (pre : List Document) (st : LoopState), (∀ d ∈ pre, d.marshal ≠ none) →
      esIndexLoop env (pre ++ bad :: rest) st
        = ((esIndexLoop env pre st).1,
           some ("Cannot encode document " ++ bad.display ++ ": " ++ bad.marshalErr)) := by
  intro pre
  induction pre with
  | nil =>
    intro st _
    simp [esIndexLoop, hbad]
  | cons d pre ih =>
    intro st hpre
    obtain ⟨j, hj⟩ : ∃ j, d.marshal = some j := by
      cases hm : d.marshal with
      | none => exact absurd hm (hpre d (List.mem_cons_self d pre))
      | some j => exact ⟨j, rfl⟩
    have hpre2 : ∀ x ∈ pre, x.marshal ≠ none :=
      fun x hx => hpre x (List.mem_cons_of_mem d hx)
    by_cases hmem : hexEncodeToString (sha256 (st.hasher ++ j)) ∈ st.docHash
    · simp only [List.cons_append, esIndexLoop, hj, if_pos hmem]
      exact ih _ hpre2
    · simp only [List.cons_append, esIndexLoop, hj, if_neg hmem, hadd st.items.length]
      exact ih _ hpre2

/-- OpenSearch analogue of `esIndexLoop_first_bad`. -/
lemma osIndexLoop_first_bad (env : BulkEnv) (hadd : ∀ k, env.addErr k = none)
    (bad : Document) (hbad : bad.marshal = none) (rest : List Document) :
    ∀ (pre : List Document) (st : LoopState), (∀ d ∈ pre, d.marshal ≠ none) →
      osIndexLoop env (pre ++ bad :: rest) st
        = ((osIndexLoop env pre st).1,
           some ("Cannot encode document " ++ bad.display ++ ": " ++ bad.marshalErr)) := by
  intro pre
  induction pre with
  | nil =>
    intro st _
    simp [osIndexLoop, hbad]
  | cons d pre ih =>
    intro st hpre
    obtain ⟨j, hj⟩ : ∃ j, d.marshal = some j := by
      cases hm : d.marshal with
      | none => exact absurd hm (hpre d (List.mem_cons_self d pre))
      | some j => exact ⟨j, rfl⟩
    have hpre2 : ∀ x ∈ pre, x.marshal ≠ none :=
      fun x hx => hpre x (List.mem_cons_of_mem d hx)
    by_cases hmem : hexEncodeToString (sha256 (st.hasher ++ j)) ∈ st.docHash
    · simp only [List.cons_append, osIndexLoop, hj, if_pos hmem]
      exact ih _ hpre2
    · simp only [List.cons_append, osIndexLoop, hj, if_neg hmem, hadd st.items.length]
      exact ih _ hpre2

/-! ### Claim theorems -/

/-- C2: the Elasticsearch and OpenSearch bindings compute the same function:
on equal inputs and equal upstream behaviour, `new` agrees on the stored
index and on success versus failure, and `Index` agrees on the submitted
items, the skip counter, the success/failure outcome and the returned
summary string; only error-message text differs. -/
theorem c2_es_os_equivalent (i : String) (cfg : IndexerConfig) (cenv : ClientEnv)
    (documents : List Document) (opts : IndexingOpts) (benv : BulkEnv) :
    ((Elastic.new { index := i } cfg cenv).1.index
      = (OpenSearch.new { index := i } cfg cenv).1.index)
    ∧ ((Elastic.new { index := i } cfg cenv).2.isNone
      = (OpenSearch.new { index := i } cfg cenv).2.isNone)
    ∧ ((Elastic.IndexRun { index := i } documents opts benv).submitted
      = (OpenSearch.IndexRun { index := i } documents opts benv).submitted)
    ∧ ((Elastic.IndexRun { index := i } documents opts benv).redundantSkipped
      = (OpenSearch.IndexRun { index := i } documents opts benv).redundantSkipped)
    ∧ ((Elastic.Index { index := i } documents opts benv).isOk
      = (OpenSearch.Index { index := i } documents opts benv).isOk)
    ∧ ((Elastic.Index { index := i } documents opts benv).toOption
      = (OpenSearch.Index { index := i } documents opts benv).toOption) := by
  obtain ⟨hn1, hn2⟩ := new_agree i cfg cenv
  obtain ⟨h1, h2, h3, h4, h5, h6⟩ := indexRun_agree i documents opts benv
  exact ⟨hn1, hn2, h1, h2, h5, h6⟩

/-- C1: the claim states that within one `Index` call every later occurrence
of a document whose JSON encoding equals that of an earlier document is
skipped and counted in `redundantSkipped`.  The code violates this: because
`hasher.Reset()` is not executed on the `continue` (duplicate) path, the
leftover hasher state corrupts the next document's hash.  On the document
list `["a", "a", "b", "b"]` the final `"b"` — whose encoding equals that of
the third document — is submitted to the bulk indexer again (under a second,
different DocumentID), and `redundantSkipped` ends at 1 instead of 2.
The identical loop in `OpenSearch.Index` misbehaves identically. -/
theorem c1_dedup_not_at_most_once :
    ((Elastic.IndexRun es0 [docA, docA, docB, docB] opts0 envOK).submitted.map
        (fun it => it.body) = [[34, 97, 34], [34, 98, 34], [34, 98, 34]])
    ∧ (Elastic.IndexRun es0 [docA, docA, docB, docB] opts0 envOK).redundantSkipped = 1
    ∧ ((OpenSearch.IndexRun os0 [docA, docA, docB, docB] opts0 envOK).submitted.map
        (fun it => it.body) = [[34, 97, 34], [34, 98, 34], [34, 98, 34]])
    ∧ (OpenSearch.IndexRun os0 [docA, docA, docB, docB] opts0 envOK).redundantSkipped = 1 := by
  decide

/-- C3: the claim states that every submitted item's DocumentID is the
lowercase-hex SHA-256 digest of exactly that document's JSON encoding.  The
code violates this: on `["a", "a", "b"]` the item submitted for `"b"`
carries the digest of the concatenation of the skipped duplicate's encoding
with its own (`sha256("\"a\"" ++ "\"b\"")`), which differs from the digest
of its own encoding alone.  Identically for `OpenSearch.Index`. -/
theorem c3_docid_not_own_hash :
    (((Elastic.IndexRun es0 [docA, docA, docB] opts0 envOK).submitted.getD 1
        { action := "", body := [], documentID := "" }).body = [34, 98, 34])
    ∧ (((Elastic.IndexRun es0 [docA, docA, docB] opts0 envOK).submitted.getD 1
        { action := "", body := [], documentID := "" }).documentID
        = hexEncodeToString (sha256 ([34, 97, 34] ++ [34, 98, 34])))
    ∧ (((Elastic.IndexRun es0 [docA, docA, docB] opts0 envOK).submitted.getD 1
        { action := "", body := [], documentID := "" }).documentID
        ≠ hexEncodeToString (sha256 [34, 98, 34]))
    ∧ (((OpenSearch.IndexRun os0 [docA, docA, docB] opts0 envOK).submitted.getD 1
        { action := "", body := [], documentID := "" }).documentID
        ≠ hexEncodeToString (sha256 [34, 98, 34])) := by
  decide

/-- C8: an `Index` call with an empty document list returns the string
`Indexing skipped due to 0 docs` and no error, creates no bulk indexer and
submits nothing — for both bindings and every environment. -/
theorem c8_empty_docs_skip (es : Elastic) (os : OpenSearch) (opts : IndexingOpts)
    (env : BulkEnv) :
    Elastic.Index es [] opts env = Except.ok ("Indexing skipped due to 0 docs")
    ∧ (Elastic.IndexRun es [] opts env).bulkCreated = false
    ∧ (Elastic.IndexRun es [] opts env).submitted = []
    ∧ OpenSearch.Index os [] opts env = Except.ok ("Indexing skipped due to 0 docs")
    ∧ (OpenSearch.IndexRun os [] opts env).bulkCreated = false
    ∧ (OpenSearch.IndexRun os [] opts env).submitted = [] :=
  ⟨rfl, rfl, rfl, rfl, rfl, rfl⟩

/-- C4: for a non-empty index name and a healthy cluster (health call
succeeds with status 200), `new` fails exactly when client creation fails or
when the existence check reports an error and the subsequent index creation
also fails; when the client is created, the lowercased target index is
recorded in the receiver.  Both bindings behave alike. -/
theorem c4_new_error_characterization (es : Elastic) (os : OpenSearch)
    (cfg : IndexerConfig) (cenv : ClientEnv) (hIdx : cfg.Index ≠ "")
    (hHealthErr : cenv.healthErr = none) (hStatus : cenv.healthStatus = 200) :
    ((Elastic.new es cfg cenv).2 ≠ none
      ↔ (cenv.newClientErr ≠ none
          ∨ (cenv.existsIsError = true ∧ cenv.createIsError = true)))
    ∧ ((Elastic.new es cfg cenv).1.index
      = if cenv.newClientErr = none then stringsToLower cfg.Index else es.index)
    ∧ ((OpenSearch.new os cfg cenv).2 ≠ none
      ↔ (cenv.newClientErr ≠ none
          ∨ (cenv.existsIsError = true ∧ cenv.createIsError = true)))
    ∧ ((OpenSearch.new os cfg cenv).1.index
      = if cenv.newClientErr = none then stringsToLower cfg.Index else os.index) := by
  cases hnce : cenv.newClientErr <;>
  cases hee : cenv.existsIsError <;>
  cases hce : cenv.createIsError <;>
  simp [Elastic.new, OpenSearch.new, hIdx, hnce, hHealthErr, hStatus, hee, hce]

/-- Witness for C4 at a concrete healthy configuration. -/
theorem c4_new_error_characterization_witness :
    ((Elastic.new es0 cfg0 cenvOK).2 ≠ none
      ↔ (cenvOK.newClientErr ≠ none
          ∨ (cenvOK.existsIsError = true ∧ cenvOK.createIsError = true)))
    ∧ ((Elastic.new es0 cfg0 cenvOK).1.index
      = if cenvOK.newClientErr = none then stringsToLower cfg0.Index else es0.index)
    ∧ ((OpenSearch.new os0 cfg0 cenvOK).2 ≠ none
      ↔ (cenvOK.newClientErr ≠ none
          ∨ (cenvOK.existsIsError = true ∧ cenvOK.createIsError = true)))
    ∧ ((OpenSearch.new os0 cfg0 cenvOK).1.index
      = if cenvOK.newClientErr = none then stringsToLower cfg0.Index else os0.index) :=
  c4_new_error_characterization es0 os0 cfg0 cenvOK (by decide) rfl rfl

/-- C10: after a successful `new`, the stored index name is the lowercased
configured `Index`, and every subsequent `Index` call on a non-empty
document list passes exactly that name to the bulk indexer it creates.
Both bindings behave alike. -/
theorem c10_lowercased_index_recorded (es : Elastic) (os : OpenSearch)
    (cfg : IndexerConfig) (cenv : ClientEnv)
    (h1 : (Elastic.new es cfg cenv).2 = none)
    (h2 : (OpenSearch.new os cfg cenv).2 = none) :
    ((Elastic.new es cfg cenv).1.index = stringsToLower cfg.Index)
    ∧ (∀ (documents : List Document) (opts : IndexingOpts) (benv : BulkEnv),
        documents ≠ [] →
        (Elastic.IndexRun (Elastic.new es cfg cenv).1 documents opts benv).bulkIndexUsed
          = some (stringsToLower cfg.Index))
    ∧ ((OpenSearch.new os cfg cenv).1.index = stringsToLower cfg.Index)
    ∧ (∀ (documents : List Document) (opts : IndexingOpts) (benv : BulkEnv),
        documents ≠ [] →
        (OpenSearch.IndexRun (OpenSearch.new os cfg cenv).1 documents opts benv).bulkIndexUsed
          = some (stringsToLower cfg.Index)) := by
  have he := elastic_new_success_index es cfg cenv h1
  have ho := opensearch_new_success_index os cfg cenv h2
  refine ⟨he, ?_, ho, ?_⟩
  · intro documents opts benv hne
    rw [esIndexRun_bulkIndexUsed _ documents opts benv hne, he]
  · intro documents opts benv hne
    rw [osIndexRun_bulkIndexUsed _ documents opts benv hne, ho]

/-- Witness for C10: a successful `new` on index `MyIndex` records
`myindex`, and a subsequent `Index` call hands `myindex` to the bulk
indexer. -/
theorem c10_lowercased_index_recorded_witness :
    ((Elastic.new es0 cfg0 cenvOK).1.index = stringsToLower cfg0.Index)
    ∧ ((Elastic.IndexRun (Elastic.new es0 cfg0 cenvOK).1 [docA] opts0 envOK).bulkIndexUsed
        = some (stringsToLower cfg0.Index))
    ∧ ((OpenSearch.new os0 cfg0 cenvOK).1.index = stringsToLower cfg0.Index)
    ∧ ((OpenSearch.IndexRun (OpenSearch.new os0 cfg0 cenvOK).1 [docA] opts0 envOK).bulkIndexUsed
        = some (stringsToLower cfg0.Index)) := by
  obtain ⟨p1, p2, p3, p4⟩ := c10_lowercased_index_recorded es0 os0 cfg0 cenvOK rfl rfl
  exact ⟨p1, p2 [docA] opts0 envOK (by decide), p3, p4 [docA] opts0 envOK (by decide)⟩

/-- C9: a successful non-empty `Elastic.Index` call returns the summary
head followed by the per-result entries and then — exactly when at least one
document was skipped as redundant — a final entry
`redundantskipped=<n>` (`skipSuffix` is empty for `n = 0`); and the skip
counter `n` accounts for exactly the documents that were not submitted. -/
theorem c9_redundantskipped_entry (es : Elastic) (docs : List Document)
    (opts : IndexingOpts) (env : BulkEnv) (s : String) (hne : docs ≠ [])
    (hok : (Elastic.IndexRun es docs opts env).result = Except.ok s) :
    s = indexSummary env.durStr
        (renderStats (indexerStatsList env
            (Elastic.IndexRun es docs opts env).submitted.length)
         ++ skipSuffix (Elastic.IndexRun es docs opts env).redundantSkipped)
    ∧ (Elastic.IndexRun es docs opts env).redundantSkipped
        + (Elastic.IndexRun es docs opts env).submitted.length = docs.length := by
  obtain ⟨hs, hnew, hloop, hclose, hsub, hskip⟩ :=
    esIndexRun_ok_shape es docs opts env s hne hok
  refine ⟨hs, ?_⟩
  have hcount := esIndexLoop_count env docs initLoopState hloop
  rw [hsub, hskip]
  simpa [initLoopState] using hcount

/-- Witness for C9: two equal documents, one submitted, one skipped; the
summary ends with the `redundantskipped=1` entry. -/
theorem c9_redundantskipped_entry_witness :
    ((Elastic.IndexRun es0 [docA, docA] opts0 envCreated).result
      = Except.ok ("Indexing finished in 11ms: created=1 redundantskipped=1"))
    ∧ ("Indexing finished in 11ms: created=1 redundantskipped=1"
      = indexSummary envCreated.durStr
          (renderStats (indexerStatsList envCreated
              (Elastic.IndexRun es0 [docA, docA] opts0 envCreated).submitted.length)
           ++ skipSuffix (Elastic.IndexRun es0 [docA, docA] opts0 envCreated).redundantSkipped))
    ∧ ((Elastic.IndexRun es0 [docA, docA] opts0 envCreated).redundantSkipped
        + (Elastic.IndexRun es0 [docA, docA] opts0 envCreated).submitted.length = 2) :=
  ⟨by decide,
   (c9_redundantskipped_entry es0 [docA, docA] opts0 envCreated
      ("Indexing finished in 11ms: created=1 redundantskipped=1")
      (by decide) (by decide)).1,
   (c9_redundantskipped_entry es0 [docA, docA] opts0 envCreated
      ("Indexing finished in 11ms: created=1 redundantskipped=1")
      (by decide) (by decide)).2⟩

/-- C5: on a successful non-empty `Elastic.Index` call, the summary string
consists of one ` <result>=<count>` entry per distinct result category
reported by the success callbacks (keys pairwise distinct, a key for exactly
the reported categories, each count the number of successful items of that
category), rendered by `renderStats`. -/
theorem c5_summary_per_result_counts (es : Elastic) (docs : List Document)
    (opts : IndexingOpts) (env : BulkEnv) (s : String) (hne : docs ≠ [])
    (hok : (Elastic.IndexRun es docs opts env).result = Except.ok s) :
    (s = indexSummary env.durStr
        (renderStats (indexerStatsList env
            (Elastic.IndexRun es docs opts env).submitted.length)
         ++ skipSuffix (Elastic.IndexRun es docs opts env).redundantSkipped))
    ∧ (((indexerStatsList env
          (Elastic.IndexRun es docs opts env).submitted.length).map Prod.fst).Nodup)
    ∧ (∀ r : String,
        r ∈ (indexerStatsList env
              (Elastic.IndexRun es docs opts env).submitted.length).map Prod.fst
          ↔ r ∈ successResults env (Elastic.IndexRun es docs opts env).submitted.length)
    ∧ (∀ p ∈ indexerStatsList env (Elastic.IndexRun es docs opts env).submitted.length,
        p.2 = (successResults env
                (Elastic.IndexRun es docs opts env).submitted.length).count p.1) := by
  obtain ⟨hs, -, -, -, -, -⟩ := esIndexRun_ok_shape es docs opts env s hne hok
  exact ⟨hs, indexerStatsList_keys_nodup _ _,
    fun r => mem_indexerStatsList_keys _ _ r,
    fun p hp => indexerStatsList_counts _ _ p hp⟩

/-- Witness for C5: two distinct documents, both indexed with result
`created`; the summary carries the single entry ` created=2`. -/
theorem c5_summary_per_result_counts_witness :
    ((Elastic.IndexRun es0 [docA, docB] opts0 envCreated).result
      = Except.ok ("Indexing finished in 11ms: created=2"))
    ∧ ("Indexing finished in 11ms: created=2"
      = indexSummary envCreated.durStr
          (renderStats (indexerStatsList envCreated
              (Elastic.IndexRun es0 [docA, docB] opts0 envCreated).submitted.length)
           ++ skipSuffix (Elastic.IndexRun es0 [docA, docB] opts0 envCreated).redundantSkipped))
    ∧ (((indexerStatsList envCreated
          (Elastic.IndexRun es0 [docA, docB] opts0 envCreated).submitted.length).map
            Prod.fst).Nodup)
    ∧ (("created" ∈ (indexerStatsList envCreated
          (Elastic.IndexRun es0 [docA, docB] opts0 envCreated).submitted.length).map
            Prod.fst)
        ↔ ("created" ∈ successResults envCreated
            (Elastic.IndexRun es0 [docA, docB] opts0 envCreated).submitted.length))
    ∧ ((("created", 2) : String × Nat).2
        = (successResults envCreated
            (Elastic.IndexRun es0 [docA, docB] opts0 envCreated).submitted.length).count
              (("created", 2) : String × Nat).1) :=
  ⟨by decide,
   (c5_summary_per_result_counts es0 [docA, docB] opts0 envCreated
      ("Indexing finished in 11ms: created=2") (by decide) (by decide)).1,
   (c5_summary_per_result_counts es0 [docA, docB] opts0 envCreated
      ("Indexing finished in 11ms: created=2") (by decide) (by decide)).2.1,
   (c5_summary_per_result_counts es0 [docA, docB] opts0 envCreated
      ("Indexing finished in 11ms: created=2") (by decide) (by decide)).2.2.1 "created",
   (c5_summary_per_result_counts es0 [docA, docB] opts0 envCreated
      ("Indexing finished in 11ms: created=2") (by decide) (by decide)).2.2.2
      (("created", 2) : String × Nat) (by decide)⟩

/-- A client environment whose `NewClient` call fails with text `boom`. -/
def cenvClientFail : ClientEnv :=
  { newClientErr := some ("boom"), healthErr := none, healthStatus := 200,
    existsIsError := false, createIsError := false, createRespStr := "" }

/-- A client environment whose health check fails with text `boom`. -/
def cenvHealthFail : ClientEnv :=
  { newClientErr := none, healthErr := some ("boom"), healthStatus := 200,
    existsIsError := false, createIsError := false, createRespStr := "" }

/-- A bulk environment whose `NewBulkIndexer` call fails with text `boom`. -/
def envBulkNewFail : BulkEnv := { envOK with newErr := some ("boom") }

/-- A bulk environment whose `bi.Add` calls fail with text `boom`. -/
def envAddFail : BulkEnv := { envOK with addErr := fun _ => some ("boom") }

/-- A bulk environment whose `bi.Close` call fails with text `boom`. -/
def envCloseFail : BulkEnv := { envOK with closeErr := some ("boom") }

/-- C6: with a working bulk indexer, an `Index` call on a list whose first
non-serializable document is `bad` (everything before it serializes) returns
the `Cannot encode document` error for `bad` together with the empty summary
(`Except.error` models the `("", err)` return), and the bulk indexer
received exactly the items contributed by the serializable prefix — nothing
for `bad` or any later document.  Both bindings. -/
theorem c6_first_nonserializable_errors (es : Elastic) (os : OpenSearch)
    (pre rest : List Document) (bad : Document) (opts : IndexingOpts) (env : BulkEnv)
    (hpre : ∀ d ∈ pre, d.marshal ≠ none) (hbad : bad.marshal = none)
    (hnew : env.newErr = none) (hadd : ∀ k, env.addErr k = none) :
    ((Elastic.IndexRun es (pre ++ bad :: rest) opts env).result
      = Except.error ("Cannot encode document " ++ bad.display ++ ": " ++ bad.marshalErr))
    ∧ ((Elastic.IndexRun es (pre ++ bad :: rest) opts env).submitted
      = (esIndexLoop env pre initLoopState).1.items)
    ∧ ((OpenSearch.IndexRun os (pre ++ bad :: rest) opts env).result
      = Except.error ("Cannot encode document " ++ bad.display ++ ": " ++ bad.marshalErr))
    ∧ ((OpenSearch.IndexRun os (pre ++ bad :: rest) opts env).submitted
      = (osIndexLoop env pre initLoopState).1.items) := by
  have hlen : ¬(pre ++ bad :: rest).length ≤ 0 := by
    simp only [List.length_append, List.length_cons, Nat.le_zero]
    omega
  have hloopE := esIndexLoop_first_bad env hadd bad hbad rest pre initLoopState hpre
  have hloopO := osIndexLoop_first_bad env hadd bad hbad rest pre initLoopState hpre
  refine ⟨?_, ?_, ?_, ?_⟩
  · simp only [Elastic.IndexRun]
    rw [if_neg hlen]
    simp [hnew, hloopE]
  · simp only [Elastic.IndexRun]
    rw [if_neg hlen]
    simp [hnew, hloopE]
  · simp only [OpenSearch.IndexRun]
    rw [if_neg hlen]
    simp [hnew, hloopO]
  · simp only [OpenSearch.IndexRun]
    rw [if_neg hlen]
    simp [hnew, hloopO]

/-- Witness for C6: `[docA, docBad]` fails with `docBad`'s encoding error
after submitting only the item for `docA`. -/
theorem c6_first_nonserializable_errors_witness :
    ((Elastic.IndexRun es0 [docA, docBad] opts0 envOK).result
      = Except.error ("Cannot encode document " ++ docBad.display ++ ": " ++ docBad.marshalErr))
    ∧ ((Elastic.IndexRun es0 [docA, docBad] opts0 envOK).submitted
      = (esIndexLoop envOK [docA] initLoopState).1.items)
    ∧ ((OpenSearch.IndexRun os0 [docA, docBad] opts0 envOK).result
      = Except.error ("Cannot encode document " ++ docBad.display ++ ": " ++ docBad.marshalErr))
    ∧ ((OpenSearch.IndexRun os0 [docA, docBad] opts0 envOK).submitted
      = (osIndexLoop envOK [docA] initLoopState).1.items) :=
  c6_first_nonserializable_errors es0 os0 [docA] [] docBad opts0 envOK
    (by decide) rfl rfl (fun _ => rfl)

/-- C7 counterexample: the claim says upstream errors are returned verbatim
and unmodified.  With an upstream client-creation error of text `boom`,
`Elastic.new` returns the error `error creating the ES client: boom`, which
is not `boom`. -/
theorem c7_error_not_verbatim_counterexample :
    ((Elastic.new es0 cfg0 cenvClientFail).2
      = some ("error creating the ES client: boom"))
    ∧ ((Elastic.new es0 cfg0 cenvClientFail).2 ≠ some ("boom")) := by
  decide

/-- C7 (amended): `new` and `Index` perform no retry or fallback — the first
upstream failure immediately determines the call's result — and the returned
error is the upstream error's text wrapped in a fixed context prefix (not
returned verbatim). -/
theorem c7_first_failure_prefix_wrapped (es : Elastic) (cfg : IndexerConfig)
    (cenv : ClientEnv) (docs : List Document) (d : Document) (j : Bytes)
    (rest : List Document) (opts : IndexingOpts) (benv : BulkEnv) (e : String) :
    (cfg.Index ≠ "" → cenv.newClientErr = some e →
      (Elastic.new es cfg cenv).2 = some ("error creating the ES client: " ++ e))
    ∧ (cfg.Index ≠ "" → cenv.newClientErr = none → cenv.healthErr = some e →
      (Elastic.new es cfg cenv).2 = some ("ES health check failed: " ++ e))
    ∧ (docs ≠ [] → benv.newErr = some e →
      (Elastic.IndexRun es docs opts benv).result
        = Except.error ("Error creating the indexer: " ++ e))
    ∧ (benv.newErr = none → d.marshal = some j → benv.addErr 0 = some e →
      (Elastic.IndexRun es (d :: rest) opts benv).result
        = Except.error ("Unexpected ES indexing error: " ++ e))
    ∧ (docs ≠ [] → benv.newErr = none →
        (esIndexLoop benv docs initLoopState).2 = none → benv.closeErr = some e →
      (Elastic.IndexRun es docs opts benv).result
        = Except.error ("Unexpected ES error: " ++ e)) := by
  refine ⟨?_, ?_, ?_, ?_, ?_⟩
  · intro h1 h2
    simp [Elastic.new, h1, h2]
  · intro h1 h2 h3
    simp [Elastic.new, h1, h2, h3]
  · intro h1 h2
    have hlen : ¬docs.length ≤ 0 := by
      simpa [Nat.pos_iff_ne_zero] using List.length_pos.mpr h1
    simp only [Elastic.IndexRun]
    rw [if_neg hlen]
    simp [h2]
  · intro h1 h2 h3
    have hlen : ¬(d :: rest).length ≤ 0 := by simp
    simp only [Elastic.IndexRun]
    rw [if_neg hlen]
    simp [h1, esIndexLoop, h2, initLoopState, h3]
  · intro h1 h2 h3 h4
    have hlen : ¬docs.length ≤ 0 := by
      simpa [Nat.pos_iff_ne_zero] using List.length_pos.mpr h1
    simp only [Elastic.IndexRun]
    rw [if_neg hlen]
    simp [h2, h3, h4]

/-- Witness for C7 (amended), exercising all five upstream failure points
with upstream text `boom`. -/
theorem c7_first_failure_prefix_wrapped_witness :
    ((Elastic.new es0 cfg0 cenvClientFail).2 = some ("error creating the ES client: boom"))
    ∧ ((Elastic.new es0 cfg0 cenvHealthFail).2 = some ("ES health check failed: boom"))
    ∧ ((Elastic.IndexRun es0 [docA] opts0 envBulkNewFail).result
        = Except.error ("Error creating the indexer: boom"))
    ∧ ((Elastic.IndexRun es0 [docA] opts0 envAddFail).result
        = Except.error ("Unexpected ES indexing error: boom"))
    ∧ ((Elastic.IndexRun es0 [docA] opts0 envCloseFail).result
        = Except.error ("Unexpected ES error: boom")) :=
  ⟨(c7_first_failure_prefix_wrapped es0 cfg0 cenvClientFail [docA] docA [] []
      opts0 envOK ("boom")).1 (by decide) rfl,
   (c7_first_failure_prefix_wrapped es0 cfg0 cenvHealthFail [docA] docA [] []
      opts0 envOK ("boom")).2.1 (by decide) rfl rfl,
   (c7_first_failure_prefix_wrapped es0 cfg0 cenvOK [docA] docA [] []
      opts0 envBulkNewFail ("boom")).2.2.1 (by decide) rfl,
   (c7_first_failure_prefix_wrapped es0 cfg0 cenvOK [docA] docA [34, 97, 34] []
      opts0 envAddFail ("boom")).2.2.2.1 rfl rfl rfl,
   (c7_first_failure_prefix_wrapped es0 cfg0 cenvOK [docA] docA [] []
      opts0 envCloseFail ("boom")).2.2.2.2 (by decide) rfl (by decide) rfl⟩

end GoCommons
